import Mathlib

/-!
Verification of the benchmark sweep driver `run.py` of the dprio repository.

The driver defines one operation, `run(args)`, which launches the external
`comparison` binary via `subprocess.run(args, capture_output=True, check=True)`
and then executes `print(str(result.stdout[:-1], encoding="utf-8"))`, and a
module-level script that sweeps a dimension grid and a client grid, calling
`run` five times per grid point.

The embedding below is shallow.  A subprocess execution is represented by an
`Outcome` record (captured stdout bytes, captured stderr bytes, exit status)
supplied by an environment `env : Nat → Outcome` that maps the index of an
invocation to the outcome of that invocation; the driver itself never inspects
anything else of the subprocess.  `run` returns `Except PyError String`, where
the `ok` value is the exact text the call writes to the standard output of the
driver (the decoded bytes plus the newline that `print` appends) and `error`
is the Python exception that aborts the script.
-/

namespace DprioRun

/-- A byte b is a UTF-8 continuation byte when it lies in the range 80..BF. -/
def contByte (b : Nat) : Bool := 0x80 ≤ b && b < 0xC0

/-- One step of strict UTF-8 decoding, exactly the acceptance rules of the
codec used by the Python expression str(bytes, encoding="utf-8"): ASCII bytes
stand alone; C2..DF open a 2-byte sequence; E0..EF open a 3-byte sequence with
the usual restricted second byte for E0 (A0..BF) and ED (80..9F, excluding
surrogates); F0..F4 open a 4-byte sequence with restricted second byte for F0
(90..BF) and F4 (80..8F, capping at U+10FFFF); continuation bytes, C0/C1 and
F5..FF never start a character; overlong forms are rejected.  Returns the
decoded character and the remaining bytes, or none when the input does not
start with a valid encoded character. -/
def decodeOne : List Nat → Option (Char × List Nat)
  | [] => none
  | b :: rest =>
    if b < 0x80 then some (Char.ofNat b, rest)
    else if b < 0xC2 then none
    else if b < 0xE0 then
      match rest with
      | b1 :: rest1 =>
        if contByte b1 then
          some (Char.ofNat ((b - 0xC0) * 0x40 + (b1 - 0x80)), rest1)
        else none
      | [] => none
    else if b < 0xF0 then
      match rest with
      | b1 :: b2 :: rest2 =>
        if (if b = 0xE0 then decide (0xA0 ≤ b1) && decide (b1 < 0xC0)
            else if b = 0xED then decide (0x80 ≤ b1) && decide (b1 < 0xA0)
            else contByte b1) && contByte b2 then
          some (Char.ofNat ((b - 0xE0) * 0x1000 + (b1 - 0x80) * 0x40 + (b2 - 0x80)), rest2)
        else none
      | _ => none
    else if b < 0xF5 then
      match rest with
      | b1 :: b2 :: b3 :: rest3 =>
        if (if b = 0xF0 then decide (0x90 ≤ b1) && decide (b1 < 0xC0)
            else if b = 0xF4 then decide (0x80 ≤ b1) && decide (b1 < 0x90)
            else contByte b1) && contByte b2 && contByte b3 then
          some (Char.ofNat ((b - 0xF0) * 0x40000 + (b1 - 0x80) * 0x1000 +
                            (b2 - 0x80) * 0x40 + (b3 - 0x80)), rest3)
        else none
      | _ => none
    else none

/-- Strict UTF-8 decoding of a whole byte string, driven by a fuel counter so
that the recursion is structural.  Each successful `decodeOne` step consumes at
least one byte, so fuel equal to the length of the input never runs out. -/
def utf8DecodeAux : Nat → List Nat → Option (List Char)
  | _, [] => some []
  | 0, _ :: _ => none
  | fuel + 1, l =>
    match decodeOne l with
    | some (c, rest) =>
      match utf8DecodeAux fuel rest with
      | some cs => some (c :: cs)
      | none => none
    | none => none

/-- Strict UTF-8 decoding, the behaviour of str(b, encoding="utf-8") in
Python: all of the bytes decode, or a UnicodeDecodeError is raised (modelled
as none). -/
def utf8Decode (l : List Nat) : Option (List Char) := utf8DecodeAux l.length l

/-- The outcome of one subprocess execution, as observed by the driver through
subprocess.run(args, capture_output=True, check=True): the raw bytes captured
from the standard output and standard error of the subprocess, and its exit
status (returncode). -/
structure Outcome where
  stdout : List Nat
  stderrBytes : List Nat
  returncode : Int

/-- The two Python exceptions the body of run can raise: CalledProcessError
(raised by subprocess.run when check=True and the exit status is non-zero,
carrying the command and the returncode) and UnicodeDecodeError (raised by
str(bytes, encoding="utf-8") on invalid UTF-8). -/
inductive PyError where
  | calledProcessError (cmd : List String) (returncode : Int)
  | unicodeDecodeError
deriving DecidableEq

/-- The function run of run.py line 5 to 7:

    def run(args):
        result = subprocess.run(args, capture_output=True, check=True)
        print(str(result.stdout[:-1], encoding="utf-8"))

With check=True, subprocess.run raises CalledProcessError(returncode, args)
before anything is printed when the exit status is non-zero.  Otherwise the
captured stdout minus its final byte (the Python slice stdout[:-1], which is
List.dropLast) is decoded as strict UTF-8 — failure raises a
UnicodeDecodeError — and printed; print appends one newline.  The ok value is
the full text the call writes to the standard output of the driver. -/
def run (args : List String) (o : Outcome) : Except PyError String :=
  if o.returncode = 0 then
    match utf8Decode o.stdout.dropLast with
    | some cs => .ok (String.mk cs ++ "\n")
    | none => .error .unicodeDecodeError
  else
    .error (.calledProcessError args o.returncode)

/-- The path of the external binary, as written in run.py. -/
def comparisonCmd : String := "./target/release/examples/comparison"

/-- run.py line 9: dimensions = ["1", "8", "64", "256"]. -/
def dimensions : List String := ["1", "8", "64", "256"]

/-- run.py line 18: clients = ["10000", "100000", "1000000"]. -/
def clients : List String := ["10000", "100000", "1000000"]

/-- The argument vectors passed to run by the dimension loop of run.py lines
10 to 16, in execution order: for each dimension, the prio vector five times,
then the dprio vector five times. -/
def dimensionInvocations : List (List String) :=
  dimensions.flatMap fun dimension =>
    List.replicate 5 [comparisonCmd, "-f", "prio", "-d", dimension, "-c", "10000"] ++
    List.replicate 5 [comparisonCmd, "-f", "dprio", "-d", dimension, "-c", "10000"]

/-- The argument vectors passed to run by the client loop of run.py lines 19
to 25, in execution order. -/
def clientInvocations : List (List String) :=
  clients.flatMap fun nClients =>
    List.replicate 5 [comparisonCmd, "-f", "prio", "-d", "1", "-c", nClients] ++
    List.replicate 5 [comparisonCmd, "-f", "dprio", "-d", "1", "-c", nClients]

/-- The full schedule of argument vectors of the module script of run.py: the
dimension loop runs to completion before the client loop starts. -/
def sweepInvocations : List (List String) :=
  dimensionInvocations ++ clientInvocations

/-- The observable trace of one execution of the module script: the argument
vectors actually handed to subprocess.run in order, the text chunks printed to
the standard output of the driver in order (one chunk per successful call to
run, newline included), and the uncaught exception that terminated the script,
if any. -/
structure SweepTrace where
  issued : List (List String)
  printed : List String
  error : Option PyError
deriving DecidableEq

/-- Sequential execution of a list of calls to run, stopping at the first
exception, exactly as an uncaught Python exception aborts the script.  The
environment is shifted by one at each step, so env i is the outcome of the
i-th remaining invocation. -/
def execSweep : List (List String) → (Nat → Outcome) → SweepTrace
  | [], _ => ⟨[], [], none⟩
  | args :: rest, env =>
    match run args (env 0) with
    | .error e => ⟨[args], [], some e⟩
    | .ok s =>
      let t := execSweep rest (fun i => env (i + 1))
      ⟨args :: t.issued, s :: t.printed, t.error⟩

/-- One execution of the whole module script of run.py against an environment
that fixes the outcome of every invocation. -/
def runSweep (env : Nat → Outcome) : SweepTrace :=
  execSweep sweepInvocations env

/-- An outcome on which run succeeds: exit status zero and the captured stdout
minus its final byte decodes as UTF-8. -/
def Outcome.ok (o : Outcome) : Prop :=
  o.returncode = 0 ∧ (utf8Decode o.stdout.dropLast).isSome = true

instance (o : Outcome) : Decidable o.ok := by
  unfold Outcome.ok; infer_instance

/-- State-threaded form of run: the value of the callers list variable args is
threaded through the call.  The body of run contains no statement that writes
to the list (subprocess.run reads the argument vector without modifying it,
and the print statement does not reference args), so the list after the call
is the list before it. -/
def runSt (args : List String) (o : Outcome) : Except PyError String × List String :=
  (run args o, args)

/-- On an outcome that run accepts, run returns some printed text. -/
theorem run_ok_of_ok (args : List String) (o : Outcome) (h : o.ok) :
    ∃ s, run args o = .ok s := by
  obtain ⟨h0, h1⟩ := h
  obtain ⟨cs, hcs⟩ := Option.isSome_iff_exists.mp h1
  exact ⟨String.mk cs ++ "\n", by simp [run, h0, hcs]⟩

/-- When every outcome the environment supplies is accepted by run, the
execution issues every scheduled invocation, prints one chunk per invocation
and raises nothing. -/
theorem execSweep_all_ok (l : List (List String)) (env : Nat → Outcome)
    (h : ∀ i, (env i).ok) :
    (execSweep l env).issued = l ∧ (execSweep l env).printed.length = l.length ∧
      (execSweep l env).error = none := by
  induction l generalizing env with
  | nil => exact ⟨rfl, rfl, rfl⟩
  | cons args rest ih =>
    obtain ⟨s, hs⟩ := run_ok_of_ok args (env 0) (h 0)
    have ihr := ih (fun i => env (i + 1)) (fun i => h (i + 1))
    simp [execSweep, hs, ihr.1, ihr.2.1, ihr.2.2]

/-- When the first k outcomes are accepted by run and the call at index k
raises the exception e, the execution issues exactly the first k + 1 scheduled
invocations, prints exactly k chunks, and terminates with e. -/
theorem execSweep_fail (l : List (List String)) (env : Nat → Outcome) (k : Nat)
    (hk : k < l.length) (hok : ∀ i, i < k → (env i).ok) (e : PyError)
    (he : run (l.get ⟨k, hk⟩) (env k) = .error e) :
    (execSweep l env).issued = l.take (k + 1) ∧
      (execSweep l env).printed.length = k ∧
      (execSweep l env).error = some e := by
  induction l generalizing env k with
  | nil => exact absurd hk (Nat.not_lt_zero k)
  | cons args rest ih =>
    cases k with
    | zero =>
      have he0 : run args (env 0) = .error e := he
      simp [execSweep, he0]
    | succ j =>
      obtain ⟨s, hs⟩ := run_ok_of_ok args (env 0) (hok 0 (Nat.succ_pos j))
      have hk' : j < rest.length := Nat.lt_of_succ_lt_succ hk
      have he' : run (rest.get ⟨j, hk'⟩) (env (j + 1)) = .error e := he
      have ihr := ih (fun i => env (i + 1)) j hk'
        (fun i hi => hok (i + 1) (Nat.succ_lt_succ hi)) he'
      simp [execSweep, hs, ihr.1, ihr.2.1, ihr.2.2]

/-- Claim C1: for every dimension value d in the ordered sequence 1, 8, 64,
256 and each mode m, with prio before dprio, the driver calls run with exactly
the argument vector [path, -f, m, -d, d, -c, 10000], exactly 5 times in
immediate succession, before moving to the next pair in listed order (stated
for a sweep in which every call to run succeeds; the first 40 invocations are
the dimension grid). -/
theorem sweep_dimension_grid_schedule (env : Nat → Outcome)
    (h : ∀ i, (env i).ok) :
    (runSweep env).issued.take 40 =
      List.replicate 5 ["./target/release/examples/comparison", "-f", "prio", "-d", "1", "-c", "10000"] ++
      List.replicate 5 ["./target/release/examples/comparison", "-f", "dprio", "-d", "1", "-c", "10000"] ++
      List.replicate 5 ["./target/release/examples/comparison", "-f", "prio", "-d", "8", "-c", "10000"] ++
      List.replicate 5 ["./target/release/examples/comparison", "-f", "dprio", "-d", "8", "-c", "10000"] ++
      List.replicate 5 ["./target/release/examples/comparison", "-f", "prio", "-d", "64", "-c", "10000"] ++
      List.replicate 5 ["./target/release/examples/comparison", "-f", "dprio", "-d", "64", "-c", "10000"] ++
      List.replicate 5 ["./target/release/examples/comparison", "-f", "prio", "-d", "256", "-c", "10000"] ++
      List.replicate 5 ["./target/release/examples/comparison", "-f", "dprio", "-d", "256", "-c", "10000"] := by
  have hall := execSweep_all_ok sweepInvocations env h
  show (execSweep sweepInvocations env).issued.take 40 = _
  rw [hall.1]
  rfl

/-- Witness for claim C1 at a concrete environment in which every subprocess
exits 0 and prints the two bytes 97, 10. -/
theorem sweep_dimension_grid_schedule_witness :
    (runSweep (fun _ => ⟨[97, 10], [], 0⟩)).issued.take 40 =
      List.replicate 5 ["./target/release/examples/comparison", "-f", "prio", "-d", "1", "-c", "10000"] ++
      List.replicate 5 ["./target/release/examples/comparison", "-f", "dprio", "-d", "1", "-c", "10000"] ++
      List.replicate 5 ["./target/release/examples/comparison", "-f", "prio", "-d", "8", "-c", "10000"] ++
      List.replicate 5 ["./target/release/examples/comparison", "-f", "dprio", "-d", "8", "-c", "10000"] ++
      List.replicate 5 ["./target/release/examples/comparison", "-f", "prio", "-d", "64", "-c", "10000"] ++
      List.replicate 5 ["./target/release/examples/comparison", "-f", "dprio", "-d", "64", "-c", "10000"] ++
      List.replicate 5 ["./target/release/examples/comparison", "-f", "prio", "-d", "256", "-c", "10000"] ++
      List.replicate 5 ["./target/release/examples/comparison", "-f", "dprio", "-d", "256", "-c", "10000"] :=
  sweep_dimension_grid_schedule (fun _ => ⟨[97, 10], [], 0⟩)
    (fun _ => (by decide : (⟨[97, 10], [], 0⟩ : Outcome).ok))

/-- Claim C2: for every client-count value c in the ordered sequence 10000,
100000, 1000000 and each mode m, with prio before dprio, the driver calls run
with exactly the argument vector [path, -f, m, -d, 1, -c, c], exactly 5 times
per pair, in listed order (stated for a sweep in which every call to run
succeeds; the client grid is the remainder of the schedule after the 40
dimension-grid invocations). -/
theorem sweep_client_grid_schedule (env : Nat → Outcome)
    (h : ∀ i, (env i).ok) :
    (runSweep env).issued.drop 40 =
      List.replicate 5 ["./target/release/examples/comparison", "-f", "prio", "-d", "1", "-c", "10000"] ++
      List.replicate 5 ["./target/release/examples/comparison", "-f", "dprio", "-d", "1", "-c", "10000"] ++
      List.replicate 5 ["./target/release/examples/comparison", "-f", "prio", "-d", "1", "-c", "100000"] ++
      List.replicate 5 ["./target/release/examples/comparison", "-f", "dprio", "-d", "1", "-c", "100000"] ++
      List.replicate 5 ["./target/release/examples/comparison", "-f", "prio", "-d", "1", "-c", "1000000"] ++
      List.replicate 5 ["./target/release/examples/comparison", "-f", "dprio", "-d", "1", "-c", "1000000"] := by
  have hall := execSweep_all_ok sweepInvocations env h
  show (execSweep sweepInvocations env).issued.drop 40 = _
  rw [hall.1]
  rfl

/-- Witness for claim C2 at a concrete environment in which every subprocess
exits 0 and prints the two bytes 97, 10. -/
theorem sweep_client_grid_schedule_witness :
    (runSweep (fun _ => ⟨[97, 10], [], 0⟩)).issued.drop 40 =
      List.replicate 5 ["./target/release/examples/comparison", "-f", "prio", "-d", "1", "-c", "10000"] ++
      List.replicate 5 ["./target/release/examples/comparison", "-f", "dprio", "-d", "1", "-c", "10000"] ++
      List.replicate 5 ["./target/release/examples/comparison", "-f", "prio", "-d", "1", "-c", "100000"] ++
      List.replicate 5 ["./target/release/examples/comparison", "-f", "dprio", "-d", "1", "-c", "100000"] ++
      List.replicate 5 ["./target/release/examples/comparison", "-f", "prio", "-d", "1", "-c", "1000000"] ++
      List.replicate 5 ["./target/release/examples/comparison", "-f", "dprio", "-d", "1", "-c", "1000000"] :=
  sweep_client_grid_schedule (fun _ => ⟨[97, 10], [], 0⟩)
    (fun _ => (by decide : (⟨[97, 10], [], 0⟩ : Outcome).ok))

/-- Claim C3: a full sweep in which every subprocess succeeds performs exactly
70 invocations, 40 from the dimension grid followed by 30 from the client
grid, in a fixed total order: parameter values in listed order, all 5 prio
runs before the first dprio run of the same value, and the dimension grid
complete before the client grid begins. -/
theorem sweep_total_order (env : Nat → Outcome) (h : ∀ i, (env i).ok) :
    (runSweep env).issued =
      (List.replicate 5 ["./target/release/examples/comparison", "-f", "prio", "-d", "1", "-c", "10000"] ++
       List.replicate 5 ["./target/release/examples/comparison", "-f", "dprio", "-d", "1", "-c", "10000"] ++
       List.replicate 5 ["./target/release/examples/comparison", "-f", "prio", "-d", "8", "-c", "10000"] ++
       List.replicate 5 ["./target/release/examples/comparison", "-f", "dprio", "-d", "8", "-c", "10000"] ++
       List.replicate 5 ["./target/release/examples/comparison", "-f", "prio", "-d", "64", "-c", "10000"] ++
       List.replicate 5 ["./target/release/examples/comparison", "-f", "dprio", "-d", "64", "-c", "10000"] ++
       List.replicate 5 ["./target/release/examples/comparison", "-f", "prio", "-d", "256", "-c", "10000"] ++
       List.replicate 5 ["./target/release/examples/comparison", "-f", "dprio", "-d", "256", "-c", "10000"]) ++
      (List.replicate 5 ["./target/release/examples/comparison", "-f", "prio", "-d", "1", "-c", "10000"] ++
       List.replicate 5 ["./target/release/examples/comparison", "-f", "dprio", "-d", "1", "-c", "10000"] ++
       List.replicate 5 ["./target/release/examples/comparison", "-f", "prio", "-d", "1", "-c", "100000"] ++
       List.replicate 5 ["./target/release/examples/comparison", "-f", "dprio", "-d", "1", "-c", "100000"] ++
       List.replicate 5 ["./target/release/examples/comparison", "-f", "prio", "-d", "1", "-c", "1000000"] ++
       List.replicate 5 ["./target/release/examples/comparison", "-f", "dprio", "-d", "1", "-c", "1000000"]) ∧
    (runSweep env).issued.length = 70 := by
  have hall := execSweep_all_ok sweepInvocations env h
  refine ⟨?_, ?_⟩
  · show (execSweep sweepInvocations env).issued = _
    rw [hall.1]
    rfl
  · show (execSweep sweepInvocations env).issued.length = 70
    rw [hall.1]
    rfl

/-- Witness for claim C3 at a concrete environment in which every subprocess
exits 0 and prints the two bytes 97, 10: the sweep issues exactly 70
invocations. -/
theorem sweep_total_order_witness :
    (runSweep (fun _ => ⟨[97, 10], [], 0⟩)).issued.length = 70 :=
  (sweep_total_order (fun _ => ⟨[97, 10], [], 0⟩)
    (fun _ => (by decide : (⟨[97, 10], [], 0⟩ : Outcome).ok))).2

/-- Claim C4: for an invocation whose subprocess exits with status 0, run
decodes the captured standard-output bytes as UTF-8 after dropping exactly the
final byte, and prints the result followed by one newline. -/
theorem run_success_drops_final_byte (args : List String)
    (errBytes bs : List Nat) (b : Nat) (cs : List Char)
    (h : utf8Decode bs = some cs) :
    run args ⟨bs ++ [b], errBytes, 0⟩ = .ok (String.mk cs ++ "\n") := by
  have hdl : (bs ++ [b]).dropLast = bs := by simp
  simp [run, hdl, h]

/-- Witness for claim C4: a subprocess whose standard output is the byte
string of hello followed by a newline byte, and which exits 0, makes run print
exactly the line hello. -/
theorem run_success_drops_final_byte_witness :
    run ["./target/release/examples/comparison"]
      ⟨[104, 101, 108, 108, 111, 10], [], 0⟩ = .ok "hello\n" :=
  run_success_drops_final_byte ["./target/release/examples/comparison"] []
    [104, 101, 108, 108, 111] 10 (String.toList "hello") rfl

/-- Claim C5: for an invocation whose subprocess exits with a non-zero status,
after k earlier successful invocations, the whole sweep terminates with a
CalledProcessError carrying the failing argument vector and the exit status,
nothing is printed for the failing invocation (exactly k chunks are printed in
total), and no invocation beyond the failing one is issued. -/
theorem run_nonzero_exit_aborts_sweep (env : Nat → Outcome) (k : Nat)
    (hk : k < sweepInvocations.length) (hok : ∀ i, i < k → (env i).ok)
    (hrc : (env k).returncode ≠ 0) :
    (runSweep env).error =
        some (.calledProcessError (sweepInvocations.get ⟨k, hk⟩)
          (env k).returncode) ∧
      (runSweep env).printed.length = k ∧
      (runSweep env).issued = sweepInvocations.take (k + 1) := by
  have he : run (sweepInvocations.get ⟨k, hk⟩) (env k) =
      .error (.calledProcessError (sweepInvocations.get ⟨k, hk⟩)
        (env k).returncode) := by
    simp [run, hrc]
  have hf := execSweep_fail sweepInvocations env k hk hok _ he
  exact ⟨hf.2.2, hf.2.1, hf.1⟩

/-- Witness for claim C5: a subprocess that exits with status 1 on the very
first invocation terminates the sweep with a CalledProcessError carrying the
first argument vector and exit status 1, after printing nothing and issuing
only that one invocation. -/
theorem run_nonzero_exit_aborts_sweep_witness :
    (runSweep (fun _ => ⟨[], [], 1⟩)).error =
        some (.calledProcessError
          ["./target/release/examples/comparison", "-f", "prio", "-d", "1", "-c", "10000"] 1) ∧
      (runSweep (fun _ => ⟨[], [], 1⟩)).printed.length = 0 ∧
      (runSweep (fun _ => ⟨[], [], 1⟩)).issued =
        [["./target/release/examples/comparison", "-f", "prio", "-d", "1", "-c", "10000"]] := by
  have h := run_nonzero_exit_aborts_sweep (fun _ => ⟨[], [], 1⟩) 0 (by decide)
    (fun i hi => absurd hi (Nat.not_lt_zero i))
    ((by decide : ((1 : Int) ≠ 0)))
  exact ⟨h.1, h.2.1, h.2.2⟩

/-- Claim C6: for an invocation whose subprocess exits 0 but whose captured
standard-output bytes, after the final byte is dropped, are not valid UTF-8,
run raises a fatal UnicodeDecodeError and the sweep terminates without further
invocations (stated with k earlier successful invocations: exactly k chunks
are printed and only the first k + 1 invocations are issued). -/
theorem run_decode_failure_aborts_sweep (env : Nat → Outcome) (k : Nat)
    (hk : k < sweepInvocations.length) (hok : ∀ i, i < k → (env i).ok)
    (hrc : (env k).returncode = 0)
    (hdec : utf8Decode (env k).stdout.dropLast = none) :
    (runSweep env).error = some .unicodeDecodeError ∧
      (runSweep env).printed.length = k ∧
      (runSweep env).issued = sweepInvocations.take (k + 1) := by
  have he : run (sweepInvocations.get ⟨k, hk⟩) (env k) =
      .error .unicodeDecodeError := by
    simp [run, hrc, hdec]
  have hf := execSweep_fail sweepInvocations env k hk hok _ he
  exact ⟨hf.2.2, hf.2.1, hf.1⟩

/-- Witness for claim C6: a subprocess that exits 0 but prints the bytes 255,
10 (the byte 255 left after dropping the trailing newline byte is invalid
UTF-8) terminates the sweep with a UnicodeDecodeError after issuing only the
first invocation. -/
theorem run_decode_failure_aborts_sweep_witness :
    (runSweep (fun _ => ⟨[255, 10], [], 0⟩)).error =
        some .unicodeDecodeError ∧
      (runSweep (fun _ => ⟨[255, 10], [], 0⟩)).printed.length = 0 ∧
      (runSweep (fun _ => ⟨[255, 10], [], 0⟩)).issued =
        [["./target/release/examples/comparison", "-f", "prio", "-d", "1", "-c", "10000"]] := by
  have h := run_decode_failure_aborts_sweep (fun _ => ⟨[255, 10], [], 0⟩) 0
    (by decide) (fun i hi => absurd hi (Nat.not_lt_zero i))
    ((rfl : (0 : Int) = 0))
    ((rfl : utf8Decode (List.dropLast [255, 10]) = none))
  exact ⟨h.1, h.2.1, h.2.2⟩

/-- Claim C7: the printed output of the driver never depends on what the
subprocess writes to standard error: two calls to run that differ only in the
captured standard-error bytes (same captured stdout bytes, same exit status)
produce the identical result, so no stderr byte ever reaches the output of
the driver. -/
theorem run_output_independent_of_stderr (args : List String)
    (outBytes : List Nat) (rc : Int) (errBytes1 errBytes2 : List Nat) :
    run args ⟨outBytes, errBytes1, rc⟩ = run args ⟨outBytes, errBytes2, rc⟩ :=
  rfl

/-- Claim C8: a subprocess that exits 0 with completely empty standard output
does not make run raise: the Python slice of an empty byte string is the empty
byte string, which decodes to the empty text, so run prints a single empty
line. -/
theorem run_empty_stdout_prints_empty_line (args : List String)
    (errBytes : List Nat) :
    run args ⟨[], errBytes, 0⟩ = .ok "\n" :=
  rfl

/-- Claim C9: run never mutates the argument list it is given: in the
state-threaded form of run, the list after the call equals the list before it,
while the computed result is exactly that of run. -/
theorem run_preserves_args (args : List String) (o : Outcome) :
    (runSt args o).2 = args ∧ (runSt args o).1 = run args o :=
  ⟨rfl, rfl⟩

/-- Counterexample to claim C10 as stated: two environments in which every
subprocess exits with status 0 and which differ only in the bytes the
subprocesses print, yet the two sweeps issue different invocation sequences —
in the second environment the first subprocess prints the bytes 255, 10, the
byte left after dropping the trailing byte is not valid UTF-8, and the sweep
aborts after a single invocation instead of issuing all 70. -/
theorem sweep_schedule_depends_on_stdout :
    (∀ i : Nat,
        ((fun _ : Nat => (⟨[97, 10], [], 0⟩ : Outcome)) i).returncode = 0) ∧
      (∀ i : Nat,
        ((fun j : Nat => if j = 0 then (⟨[255, 10], [], 0⟩ : Outcome)
          else ⟨[97, 10], [], 0⟩) i).returncode = 0) ∧
      (runSweep (fun _ : Nat => (⟨[97, 10], [], 0⟩ : Outcome))).issued ≠
        (runSweep (fun j : Nat => if j = 0 then (⟨[255, 10], [], 0⟩ : Outcome)
          else ⟨[97, 10], [], 0⟩)).issued := by
  refine ⟨fun i => rfl, fun i => ?_, fun hEq => ?_⟩
  · by_cases h : i = 0 <;> simp [h]
  · have h1 : (runSweep (fun _ : Nat =>
        (⟨[97, 10], [], 0⟩ : Outcome))).issued.length = 70 := rfl
    have h2 : (runSweep (fun j : Nat => if j = 0 then
        (⟨[255, 10], [], 0⟩ : Outcome)
          else ⟨[97, 10], [], 0⟩)).issued.length = 1 := rfl
    rw [hEq, h2] at h1
    exact absurd h1 (by decide)

/-- Claim C10 as amended: the sequence of argument vectors the driver passes
to the subprocess launcher is a fixed constant independent of the subprocess
standard-output contents, for any two full sweeps in which every subprocess
exits 0 and every captured standard output, after its final byte is dropped,
decodes as UTF-8: the two sweeps issue identical invocation sequences
regardless of what the subprocesses print. -/
theorem sweep_schedule_fixed_for_ok_runs (env1 env2 : Nat → Outcome)
    (h1 : ∀ i, (env1 i).ok) (h2 : ∀ i, (env2 i).ok) :
    (runSweep env1).issued = (runSweep env2).issued :=
  ((execSweep_all_ok sweepInvocations env1 h1).1).trans
    ((execSweep_all_ok sweepInvocations env2 h2).1).symm

/-- Witness for the amended claim C10 at two concrete environments whose
subprocesses print different valid outputs: both sweeps issue the same
invocation sequence. -/
theorem sweep_schedule_fixed_for_ok_runs_witness :
    (runSweep (fun _ => ⟨[97, 10], [], 0⟩)).issued =
      (runSweep (fun _ => ⟨[98, 98, 10], [], 0⟩)).issued :=
  sweep_schedule_fixed_for_ok_runs (fun _ => ⟨[97, 10], [], 0⟩)
    (fun _ => ⟨[98, 98, 10], [], 0⟩)
    (fun _ => (by decide : (⟨[97, 10], [], 0⟩ : Outcome).ok))
    (fun _ => (by decide : (⟨[98, 98, 10], [], 0⟩ : Outcome).ok))

end DprioRun
